import Mathlib

/-!
Shallow embedding of the goldrust golden-file testing library (src/src/lib.rs).

The filesystem is modelled as an explicit state: an association list from
paths to file contents, plus a list of paths on which opening a file for
writing fails (modelling I/O errors of `OpenOptions::open`).

The Rust code terminates the process on contradictory configurations
(`response_source` has two `panic!` arms); these are modelled as an
`Except ConfigError` result, and the teardown behaviour of `impl Drop for
Goldrust` (which emits a `tracing::error!` log entry and nothing else) is
modelled as a `DropAction` value computed from the session state.
-/

/-- The two-variant `ResponseSource` enum from the source. -/
inductive ResponseSource
  | Local
  | External
deriving DecidableEq

/-- The two contradictory configurations on which `response_source` aborts:
`(false, true, _)` and `(false, false, false)`. -/
inductive ConfigError
  | refreshWithoutExternal
  | noFixtureNoExternal
deriving DecidableEq

/-- `std::io::Error` as surfaced by `Goldrust::save`. -/
inductive StorageError
  | ioError
deriving DecidableEq

/-- Filesystem state: file contents by path, and the paths on which opening
for write fails. -/
structure FS where
  files : List (String × String)
  badPaths : List String
deriving DecidableEq

/-- `Path::exists` on the modelled filesystem. -/
def FS.fexists (fs : FS) (p : String) : Bool :=
  (fs.files.lookup p).isSome

/-- Write (create or truncate-and-overwrite) the file at `p` with content `s`. -/
def FS.setFile (fs : FS) (p s : String) : FS :=
  { fs with files := (p, s) :: fs.files.filter (fun q => q.1 != p) }

/-- The decision core of `response_source`: the `match` over
`(allow_external_api_call, update_golden_files, golden_file_exists)`,
with the two `panic!` arms modelled as `ConfigError` results. -/
def response_source_core (allow_external_api_call update_golden_files golden_file_exists : Bool) :
    Except ConfigError ResponseSource :=
  match allow_external_api_call, update_golden_files, golden_file_exists with
  | false, true, _ => .error .refreshWithoutExternal
  | false, false, false => .error .noFixtureNoExternal
  | false, false, true => .ok .Local
  | true, false, false => .ok .External
  | true, false, true => .ok .Local
  | true, true, _ => .ok .External

/-- The full `response_source` function: reads existence of the golden file
from the filesystem state, then decides.  The state is returned unchanged,
matching the fact that the source performs no write. -/
def response_source (allow_external_api_call update_golden_files : Bool)
    (golden_file_path : String) (fs : FS) :
    Except ConfigError ResponseSource × FS :=
  let golden_file_exists := fs.fexists golden_file_path
  (response_source_core allow_external_api_call update_golden_files golden_file_exists, fs)

/-- Alias for `response_source`, usable inside the `Goldrust` namespace where
the plain name would resolve to the structure field of the same name. -/
def resolveResponseSource := response_source

/-- The environment-derived configuration read by `Goldrust::new`:
`GOLDRUST_DIR` (optional, defaulted), and the two already-parsed boolean
variables. -/
structure Env where
  goldrust_dir : Option String
  allow_external_api_call : Bool
  update_golden_files : Bool
deriving DecidableEq

/-- The golden file path computed in `Goldrust::new`:
the directory (defaulting to `tests/resources/golden`) joined with
`function_name` plus the `.json` extension. -/
def golden_file_path_of (env : Env) (function_name : String) : String :=
  (env.goldrust_dir.getD "tests/resources/golden") ++ "/" ++ function_name ++ ".json"

/-- The `Goldrust` struct from the source. -/
structure Goldrust where
  update_golden_files : Bool
  golden_file_path : String
  response_source : ResponseSource
  save_check : Bool
deriving DecidableEq

/-- `Goldrust::new`: computes the golden file path, sets
`save_check = !update_golden_files`, and calls `response_source`; an abort
inside `response_source` propagates as the `ConfigError`.  The filesystem
state passes through unchanged (construction performs no write). -/
def Goldrust.new (env : Env) (function_name : String) (fs : FS) :
    Except ConfigError Goldrust × FS :=
  let golden_file_path := golden_file_path_of env function_name
  let save_check := !env.update_golden_files
  match (resolveResponseSource env.allow_external_api_call env.update_golden_files
      golden_file_path fs).1 with
  | .error e => (.error e, fs)
  | .ok rs =>
      (.ok { update_golden_files := env.update_golden_files,
             golden_file_path := golden_file_path,
             response_source := rs,
             save_check := save_check }, fs)

/-- `Goldrust::save`: sets `self.save_check = true` first, returns `Ok` at
once when `update_golden_files` is false, otherwise opens the golden file for
writing (failing with an I/O error on a bad path) and writes the serialized
content, truncating whatever was there.  `ser` models the deterministic
`serde_json::to_writer_pretty` serialization of the content value. -/
def Goldrust.save {α : Type} (g : Goldrust) (ser : α → String) (content : α) (fs : FS) :
    Except StorageError Unit × Goldrust × FS :=
  let g1 := { g with save_check := true }
  if !g1.update_golden_files then (.ok (), g1, fs)
  else if fs.badPaths.contains g1.golden_file_path then (.error .ioError, g1, fs)
  else (.ok (), g1, fs.setFile g1.golden_file_path (ser content))

/-- What `impl Drop for Goldrust` does at teardown: it emits a
`tracing::error!` log entry when `save_check` is false, and does nothing
otherwise.  It never aborts the process; the codomain has no abort action
because the source's `drop` has none. -/
inductive DropAction
  | logError
  | nothing
deriving DecidableEq

/-- The teardown behaviour of a session, from `impl Drop for Goldrust`. -/
def Goldrust.dropAction (g : Goldrust) : DropAction :=
  if !g.save_check then .logError else .nothing

/-- Iterated calls to `Goldrust::save`, threading session and filesystem. -/
def saveMany {α : Type} (g : Goldrust) (ser : α → String) (cs : List α) (fs : FS) :
    Goldrust × FS :=
  match cs with
  | [] => (g, fs)
  | c :: rest =>
      let r := g.save ser c fs
      saveMany r.2.1 ser rest r.2.2

/- Concrete configurations and states used by witnesses and counterexamples. -/

/-- Environment with external calls forbidden and no refresh requested. -/
def envFF : Env :=
  { goldrust_dir := none, allow_external_api_call := false, update_golden_files := false }

/-- Environment with external calls allowed and refresh requested. -/
def envTT : Env :=
  { goldrust_dir := none, allow_external_api_call := true, update_golden_files := true }

/-- Empty filesystem, all paths writable. -/
def fsEmpty : FS := { files := [], badPaths := [] }

/-- The golden file path a session built from `envTT` for test `t` uses. -/
def pathT : String := golden_file_path_of envTT "t"

/-- Filesystem with no files in which `pathT` cannot be opened for writing. -/
def fsBadT : FS := { files := [], badPaths := [pathT] }

/-- The session produced by `Goldrust.new envTT "t" fsEmpty`:
refresh requested, fixture absent, so `External` with `save_check = false`. -/
def gTT : Goldrust :=
  { update_golden_files := true,
    golden_file_path := pathT,
    response_source := .External,
    save_check := false }

/-- Environment with external calls allowed and no refresh requested. -/
def envTF : Env :=
  { goldrust_dir := none, allow_external_api_call := true, update_golden_files := false }

/-- The session produced by `Goldrust.new envTF "t" fsEmpty`:
no refresh, fixture absent, external calls allowed, so `External` with
`save_check = true`. -/
def gTF : Goldrust :=
  { update_golden_files := false,
    golden_file_path := golden_file_path_of envTF "t",
    response_source := .External,
    save_check := true }

/- Helper lemmas, shared across claims. -/

/-- Filtering a list twice with the same predicate equals filtering once. -/
theorem filter_idem {β : Type} (f : β → Bool) (l : List β) :
    (l.filter f).filter f = l.filter f := by
  induction l with
  | nil => rfl
  | cons a t ih =>
      by_cases h : f a
      · simp [List.filter_cons, h, ih]
      · simp [List.filter_cons, h, ih]

/-- Writing the same content to the same path twice leaves the filesystem
exactly as after a single write. -/
theorem FS.setFile_idem (fs : FS) (p s : String) :
    (fs.setFile p s).setFile p s = fs.setFile p s := by
  simp [FS.setFile, List.filter_cons, filter_idem]

/-- Evaluation of `save` on a non-refresh session: the flag is set and
nothing else happens. -/
theorem save_eq_of_not_update {α : Type} (g : Goldrust) (ser : α → String)
    (c : α) (fs : FS) (hu : g.update_golden_files = false) :
    g.save ser c fs = (.ok (), { g with save_check := true }, fs) := by
  simp [Goldrust.save, hu]

/-- Evaluation of `save` on a refresh session whose golden file path is
writable: the flag is set and the serialized content is written. -/
theorem save_eq_of_update_writable {α : Type} (g : Goldrust) (ser : α → String)
    (c : α) (fs : FS) (hu : g.update_golden_files = true)
    (hw : fs.badPaths.contains g.golden_file_path = false) :
    g.save ser c fs =
      (.ok (), { g with save_check := true },
       fs.setFile g.golden_file_path (ser c)) := by
  have hw' : g.golden_file_path ∉ fs.badPaths := by simpa using hw
  simp [Goldrust.save, hu, hw']

/-- Evaluation of `save` on a refresh session whose golden file path cannot
be opened: the flag is still set, an I/O error is returned, nothing written. -/
theorem save_eq_of_update_bad {α : Type} (g : Goldrust) (ser : α → String)
    (c : α) (fs : FS) (hu : g.update_golden_files = true)
    (hb : fs.badPaths.contains g.golden_file_path = true) :
    g.save ser c fs = (.error .ioError, { g with save_check := true }, fs) := by
  have hb' : g.golden_file_path ∈ fs.badPaths := by simpa using hb
  simp [Goldrust.save, hu, hb']

/- Claim theorems. -/

/-- Claim C1: for every one of the 8 boolean combinations of
`(allowExternal, refreshFixtures, fixtureExists)`, the decision function
returns exactly the outcome of the truth table: a ConfigError for
`(false, true, true)`, `(false, true, false)` and `(false, false, false)`;
`Local` for `(false, false, true)` and `(true, false, true)`; `External`
for `(true, false, false)`, `(true, true, false)` and `(true, true, true)`. -/
theorem response_source_truth_table :
    response_source_core false true true = .error .refreshWithoutExternal ∧
    response_source_core false true false = .error .refreshWithoutExternal ∧
    response_source_core false false false = .error .noFixtureNoExternal ∧
    response_source_core false false true = .ok .Local ∧
    response_source_core true false true = .ok .Local ∧
    response_source_core true false false = .ok .External ∧
    response_source_core true true false = .ok .External ∧
    response_source_core true true true = .ok .External :=
  ⟨rfl, rfl, rfl, rfl, rfl, rfl, rfl, rfl⟩

/-- Claim C4: the decision function is pure — its outcome is determined
solely by the three booleans (any two invocations agreeing on
`allowExternal`, `refreshFixtures` and on the existence of their golden
file path return the same result), and it leaves the filesystem state
unchanged. -/
theorem response_source_pure (a u : Bool) (p1 p2 : String) (fs1 fs2 : FS)
    (h : fs1.fexists p1 = fs2.fexists p2) :
    (response_source a u p1 fs1).1 = (response_source a u p2 fs2).1 ∧
    (response_source a u p1 fs1).2 = fs1 := by
  constructor
  · simp [response_source, h]
  · rfl

/-- Witness for C4 at a concrete input: two filesystems and paths agreeing
on existence of the golden file. -/
theorem response_source_pure_w :
    (response_source true false "a" { files := [("a", "x")], badPaths := [] }).1 =
      (response_source true false "b" { files := [("b", "y")], badPaths := [] }).1 ∧
    (response_source true false "a" { files := [("a", "x")], badPaths := [] }).2 =
      { files := [("a", "x")], badPaths := [] } :=
  response_source_pure true false "a" "b"
    { files := [("a", "x")], badPaths := [] }
    { files := [("b", "y")], badPaths := [] } rfl

/-- Claim C10: on a session with `update_golden_files = false`, `save`
always returns `Ok`, for every content value — it returns before any file
I/O on the non-refresh path. -/
theorem save_ok_when_not_refreshing {α : Type} (g : Goldrust) (ser : α → String)
    (c : α) (fs : FS) (hu : g.update_golden_files = false) :
    (g.save ser c fs).1 = .ok () := by
  simp [Goldrust.save, hu]

/-- Witness for C10 at a concrete session, content and filesystem. -/
theorem save_ok_when_not_refreshing_w :
    ((({ update_golden_files := false, golden_file_path := "p",
         response_source := .Local, save_check := true } : Goldrust).save
        (fun s : String => s) "body" fsEmpty).1) = .ok () :=
  save_ok_when_not_refreshing
    { update_golden_files := false, golden_file_path := "p",
      response_source := .Local, save_check := true }
    (fun s : String => s) "body" fsEmpty rfl

/-- `save` replaces the session by itself with `save_check` set, on every
control path (no-op path, failed write, successful write). -/
theorem save_sets_flag {α : Type} (g : Goldrust) (ser : α → String) (c : α) (fs : FS) :
    (g.save ser c fs).2.1 = { g with save_check := true } := by
  by_cases hu : g.update_golden_files = true
  · by_cases hb : fs.badPaths.contains g.golden_file_path = true
    · rw [save_eq_of_update_bad g ser c fs hu hb]
    · rw [save_eq_of_update_writable g ser c fs hu (by simpa using hb)]
  · rw [save_eq_of_not_update g ser c fs (by simpa using hu)]

/-- On a non-refresh session, iterated saves never touch the filesystem and
never clear the non-refresh flag. -/
theorem saveMany_noop_aux {α : Type} (ser : α → String) (cs : List α) :
    ∀ (g : Goldrust) (fs : FS), g.update_golden_files = false →
      (saveMany g ser cs fs).2 = fs ∧
      (saveMany g ser cs fs).1.update_golden_files = false := by
  induction cs with
  | nil => intro g fs hu; exact ⟨rfl, hu⟩
  | cons c rest ih =>
      intro g fs hu
      have h1 := save_eq_of_not_update g ser c fs hu
      simp only [saveMany, h1]
      exact ih _ fs hu

/-- Iterated saves preserve a set `save_check` flag. -/
theorem saveMany_flag_aux {α : Type} (ser : α → String) (cs : List α) :
    ∀ (g : Goldrust) (fs : FS), g.save_check = true →
      (saveMany g ser cs fs).1.save_check = true := by
  induction cs with
  | nil => intro g fs hs; exact hs
  | cons c rest ih =>
      intro g fs _
      simp only [saveMany]
      apply ih
      rw [save_sets_flag]

/-- What a successful `Goldrust.new` guarantees about the returned session
and the filesystem. -/
theorem new_ok_fields (env : Env) (name : String) (fs : FS) (g : Goldrust) (fs2 : FS)
    (h : Goldrust.new env name fs = (.ok g, fs2)) :
    g.update_golden_files = env.update_golden_files ∧
    g.golden_file_path = golden_file_path_of env name ∧
    g.save_check = !env.update_golden_files ∧
    Except.ok g.response_source =
      response_source_core env.allow_external_api_call env.update_golden_files
        (fs.fexists (golden_file_path_of env name)) ∧
    fs2 = fs := by
  simp only [Goldrust.new, resolveResponseSource, response_source] at h
  split at h
  · simp at h
  · rename_i r hc
    injection h with hg hfs
    injection hg with hg2
    subst hg2
    subst hfs
    refine ⟨rfl, rfl, rfl, ?_, rfl⟩
    simpa using hc.symm

/-- Claim C5: with `allowExternal = false`, `refreshFixtures = false` and a
non-existent golden file, construction fails immediately with the
ConfigError, no session value is produced, and the filesystem state is
returned unchanged (no file created or modified). -/
theorem new_config_error_untouched (env : Env) (name : String) (fs : FS)
    (ha : env.allow_external_api_call = false)
    (hu : env.update_golden_files = false)
    (he : fs.fexists (golden_file_path_of env name) = false) :
    Goldrust.new env name fs = (.error .noFixtureNoExternal, fs) := by
  simp [Goldrust.new, resolveResponseSource, response_source, response_source_core,
    ha, hu, he]

/-- Witness for C5: the forbidden-and-missing configuration on the empty
filesystem. -/
theorem new_config_error_untouched_w :
    Goldrust.new envFF "t" fsEmpty = (.error .noFixtureNoExternal, fsEmpty) :=
  new_config_error_untouched envFF "t" fsEmpty rfl rfl rfl

/-- Claim C6: on a session with `update_golden_files = false`, any number of
`save` calls with any content values leave the filesystem — in particular
the contents of the golden file path — unchanged. -/
theorem save_noop_when_not_refreshing {α : Type} (g : Goldrust) (ser : α → String)
    (cs : List α) (fs : FS) (hu : g.update_golden_files = false) :
    (saveMany g ser cs fs).2 = fs :=
  (saveMany_noop_aux ser cs g fs hu).1

/-- Witness for C6: two saves on a concrete non-refresh session. -/
theorem save_noop_when_not_refreshing_w :
    (saveMany gTF (fun s : String => s) ["a", "b"] fsEmpty).2 = fsEmpty :=
  save_noop_when_not_refreshing gTF (fun s : String => s) ["a", "b"] fsEmpty rfl

/-- Claim C8: immediately after a successful construction, `save_check`
equals the negation of `update_golden_files`, and the stored
`response_source` is exactly the result of the decision function on the
three resolved inputs (the two flags and existence of the session's golden
file path). -/
theorem new_initializes (env : Env) (name : String) (fs : FS) (g : Goldrust)
    (fs2 : FS) (h : Goldrust.new env name fs = (.ok g, fs2)) :
    g.save_check = !env.update_golden_files ∧
    response_source_core env.allow_external_api_call env.update_golden_files
      (fs.fexists g.golden_file_path) = .ok g.response_source := by
  obtain ⟨-, hpath, hflag, hrs, -⟩ := new_ok_fields env name fs g fs2 h
  exact ⟨hflag, by rw [hpath]; exact hrs.symm⟩

/-- Witness for C8: a successful construction from `envTF` on the empty
filesystem. -/
theorem new_initializes_w :
    gTF.save_check = !envTF.update_golden_files ∧
    response_source_core envTF.allow_external_api_call envTF.update_golden_files
      (fsEmpty.fexists gTF.golden_file_path) = .ok gTF.response_source :=
  new_initializes envTF "t" fsEmpty gTF fsEmpty rfl

/-- Claim C9: a session constructed with `update_golden_files = false` has
`save_check = true` at construction, the flag stays true after any sequence
of `save` calls, and the teardown check therefore never fires (the drop
action is to do nothing). -/
theorem non_refresh_invariant {α : Type} (env : Env) (name : String) (fs : FS)
    (g : Goldrust) (fs2 : FS) (ser : α → String) (cs : List α) (fs3 : FS)
    (hu : env.update_golden_files = false)
    (h : Goldrust.new env name fs = (.ok g, fs2)) :
    g.save_check = true ∧
    (saveMany g ser cs fs3).1.save_check = true ∧
    (saveMany g ser cs fs3).1.dropAction = .nothing := by
  obtain ⟨-, -, hflag, -, -⟩ := new_ok_fields env name fs g fs2 h
  have hg : g.save_check = true := by rw [hflag, hu]; rfl
  have hmany := saveMany_flag_aux ser cs g fs3 hg
  exact ⟨hg, hmany, by simp [Goldrust.dropAction, hmany]⟩

/-- Witness for C9: one save on the concrete non-refresh session. -/
theorem non_refresh_invariant_w :
    gTF.save_check = true ∧
    (saveMany gTF (fun s : String => s) ["a"] fsEmpty).1.save_check = true ∧
    (saveMany gTF (fun s : String => s) ["a"] fsEmpty).1.dropAction = .nothing :=
  non_refresh_invariant envTF "t" fsEmpty gTF fsEmpty (fun s : String => s)
    ["a"] fsEmpty rfl rfl

/-- Claim C2 (behaviour of the code at the failing input): a session built
with refresh requested whose `save` is never called reaches teardown with
`save_check = false`, and the code's teardown action is only a log entry
(`DropAction.logError`) — the modelled `Drop` implementation has no abort —
while after one successful `save` the teardown action is `nothing`. -/
theorem drop_unmet_obligation_only_logs :
    (Goldrust.new envTT "t" fsEmpty).1 = .ok gTT ∧
    gTT.dropAction = .logError ∧
    (gTT.save (fun s : String => s) "body" fsEmpty).1 = .ok () ∧
    ((gTT.save (fun s : String => s) "body" fsEmpty).2.1).dropAction = .nothing :=
  ⟨rfl, rfl, rfl, rfl⟩

/-- Claim C3 counterexample: on the refresh session `gTT`, a save whose
write fails (the golden file path cannot be opened) returns the I/O error,
yet `save_check` is `true` — it was set before the write was attempted —
and the teardown check consequently does not fire; this refutes the claim
that a failed save leaves the obligation flag unset. -/
theorem failed_save_sets_flag_cex :
    (gTT.save (fun s : String => s) "body" fsBadT).1 = .error .ioError ∧
    ((gTT.save (fun s : String => s) "body" fsBadT).2.1).save_check = true ∧
    ((gTT.save (fun s : String => s) "body" fsBadT).2.1).dropAction = .nothing :=
  ⟨rfl, rfl, rfl⟩

/-- Claim C3 (amended): for every refresh session, a save whose write fails
returns a StorageError, but the obligation flag `save_check` is nevertheless
set to `true` — `save` sets the flag on entry, before attempting the write —
so the teardown check does not fire after a failed save. -/
theorem failed_save_error_but_flag_set {α : Type} (g : Goldrust) (ser : α → String)
    (c : α) (fs : FS)
    (hu : g.update_golden_files = true)
    (hb : fs.badPaths.contains g.golden_file_path = true) :
    (g.save ser c fs).1 = .error .ioError ∧
    ((g.save ser c fs).2.1).save_check = true ∧
    ((g.save ser c fs).2.1).dropAction = .nothing := by
  rw [save_eq_of_update_bad g ser c fs hu hb]
  exact ⟨rfl, rfl, rfl⟩

/-- Witness for the amended C3: the refresh session `gTT` against the
filesystem on which its golden file path is unwritable. -/
theorem failed_save_error_but_flag_set_w :
    (gTT.save (fun s : String => s) "x" fsBadT).1 = .error .ioError ∧
    ((gTT.save (fun s : String => s) "x" fsBadT).2.1).save_check = true ∧
    ((gTT.save (fun s : String => s) "x" fsBadT).2.1).dropAction = .nothing :=
  failed_save_error_but_flag_set gTT (fun s : String => s) "x" fsBadT rfl rfl

/-- Claim C7: on a refresh session whose golden file path is writable,
calling `save` twice with the same content succeeds on the second call and
leaves the filesystem — in particular the golden file — byte-identical to
the state after a single call. -/
theorem save_idempotent {α : Type} (g : Goldrust) (ser : α → String) (c : α) (fs : FS)
    (hu : g.update_golden_files = true)
    (hw : fs.badPaths.contains g.golden_file_path = false) :
    (((g.save ser c fs).2.1).save ser c (g.save ser c fs).2.2).1 = .ok () ∧
    (((g.save ser c fs).2.1).save ser c (g.save ser c fs).2.2).2.2 =
      (g.save ser c fs).2.2 := by
  have h1 := save_eq_of_update_writable g ser c fs hu hw
  rw [h1]
  have hw2 : (fs.setFile g.golden_file_path (ser c)).badPaths.contains
      (({ g with save_check := true } : Goldrust).golden_file_path) = false := by
    simpa [FS.setFile] using hw
  have h2 := save_eq_of_update_writable ({ g with save_check := true } : Goldrust)
      ser c (fs.setFile g.golden_file_path (ser c)) hu hw2
  rw [h2]
  exact ⟨rfl, FS.setFile_idem fs g.golden_file_path (ser c)⟩

/-- Witness for C7: two identical saves on the refresh session `gTT` over
the empty (writable) filesystem. -/
theorem save_idempotent_w :
    (((gTT.save (fun s : String => s) "body" fsEmpty).2.1).save
        (fun s : String => s) "body"
        (gTT.save (fun s : String => s) "body" fsEmpty).2.2).1 = .ok () ∧
    (((gTT.save (fun s : String => s) "body" fsEmpty).2.1).save
        (fun s : String => s) "body"
        (gTT.save (fun s : String => s) "body" fsEmpty).2.2).2.2 =
      (gTT.save (fun s : String => s) "body" fsEmpty).2.2 :=
  save_idempotent gTT (fun s : String => s) "body" fsEmpty rfl rfl
